import Mathlib

/-!
Verification development for the CarTrace Pro service worker
(`service-worker.js`): a shallow embedding of the cache lifecycle, the
fetch strategies, the offline action queue drain, the client message
handler and the notification router, together with proofs about them.

Modelling conventions:
* A stored HTTP response is a snapshot of status, status text, body and
  headers.  Implicit platform-added default headers (e.g. the
  `Content-Type` a `Response` constructor adds for string bodies) are not
  modelled; only headers the code sets explicitly appear.
* The Cache Store (`caches`) is an association list from namespace name
  to a cache, itself an association list from request URL to response.
  `Cache.put` overwrites a whole entry; `caches.open` creates an empty
  namespace when absent.  Per the Cache API, `put` rejects and `match`
  misses for non-GET requests (the code never awaits its `put` calls, so
  a rejected `put` simply stores nothing).
* The network is a parameter `net : Request → Option Response`;
  `none` models a `fetch` that rejects (network failure), `some r` a
  resolved response of any status.
* A handler may resolve with a response, resolve with `undefined`
  (a non-`Response` value handed to `respondWith`), or reject with a
  thrown error; the three cases are the `HandlerResult` type.
-/

/-- Snapshot of an HTTP response as stored or returned by the worker. -/
structure Response where
  status : Nat
  statusText : String
  body : String
  headers : List (String × String)
deriving DecidableEq, Repr

/-- An inbound request as seen by the fetch listener: full URL (the cache
key), its pathname, HTTP method, the `Accept` header (`none` when the
request carries no such header) and the request body. -/
structure Request where
  url : String
  pathname : String
  method : String
  accept : Option String
  body : String
deriving DecidableEq, Repr

/-- `sub.isPrefixOf l` lifted to an infix test, modelling JavaScript
`String.prototype.includes`. -/
def listContainsSeq (sub : List Char) : List Char → Bool
  | [] => sub.isEmpty
  | c :: rest => sub.isPrefixOf (c :: rest) || listContainsSeq sub rest

/-- JavaScript `s.includes(sub)`. -/
def strIncludes (s sub : String) : Bool :=
  listContainsSeq sub.toList s.toList

/-- JavaScript `s.startsWith(pre)`. -/
def strStartsWith (s pre : String) : Bool :=
  pre.toList.isPrefixOf s.toList

/-- JavaScript `s.endsWith(post)`. -/
def strEndsWith (s post : String) : Bool :=
  post.toList.isSuffixOf s.toList

/-- Association-list lookup keyed by strings (first match wins). -/
def alistGet {α : Type} : List (String × α) → String → Option α
  | [], _ => none
  | (k0, v) :: rest, k => if k0 = k then some v else alistGet rest k

/-- Association-list overwrite-or-append, modelling whole-entry overwrite
(`Cache.put`, `Headers.set`). -/
def alistPut {α : Type} : List (String × α) → String → α → List (String × α)
  | [], k, v => [(k, v)]
  | (k0, v0) :: rest, k, v =>
    if k0 = k then (k, v) :: rest else (k0, v0) :: alistPut rest k v

/-- One cache namespace: request URL → stored response snapshot. -/
abbrev Cache := List (String × Response)

/-- The global Cache Store: namespace name → cache. -/
abbrev CacheStorage := List (String × Cache)

/-- `cache.match(request)`: non-GET requests never match. -/
def Cache.matchReq (c : Cache) (req : Request) : Option Response :=
  if req.method = "GET" then alistGet c req.url else none

/-- `cache.match(url)` with a plain URL key (a GET lookup). -/
def Cache.matchUrl (c : Cache) (u : String) : Option Response :=
  alistGet c u

/-- `caches.open(n)`: ensure namespace `n` exists (created empty). -/
def openNS : CacheStorage → String → CacheStorage
  | [], n => [(n, [])]
  | (m, c) :: rest, n =>
    if m = n then (m, c) :: rest else (m, c) :: openNS rest n

/-- The cache stored under namespace `n` (empty when absent). -/
def getCache (s : CacheStorage) (n : String) : Cache :=
  (alistGet s n).getD []

/-- `caches.open(n)` followed by `cache.put(u, r)`. -/
def putNS : CacheStorage → String → String → Response → CacheStorage
  | [], n, u, r => [(n, alistPut [] u r)]
  | (m, c) :: rest, n, u, r =>
    if m = n then (m, alistPut c u r) :: rest else (m, c) :: putNS rest n u r

/-- The response stored for URL `u` in namespace `n`. -/
def entryLookup (s : CacheStorage) (n u : String) : Option Response :=
  alistGet (getCache s n) u

/-- `caches.match(request)`: search every namespace in order; non-GET
requests never match. -/
def cachesMatch (s : CacheStorage) (req : Request) : Option Response :=
  if req.method = "GET" then
    s.findSome? (fun e => alistGet e.2 req.url)
  else none

/-- `caches.delete(n)`. -/
def cachesDelete (s : CacheStorage) (n : String) : CacheStorage :=
  s.filter (fun e => e.1 != n)

/-- `Headers.set`: overwrite-or-append a header. -/
def headerSet (hs : List (String × String)) (k v : String) : List (String × String) :=
  alistPut hs k v

/-- `Headers.get`. -/
def headerGet (hs : List (String × String)) (k : String) : Option String :=
  alistGet hs k

-- Constants of service-worker.js.

def CACHE_VERSION : String := "cartrace-v1.0.0"

def CACHE_NAME : String := "cartrace-pro-" ++ CACHE_VERSION

def API_CACHE_NAME : String := CACHE_NAME ++ "-api"

def STATIC_ASSETS : List String :=
  ["/", "/index.html", "/cartrace_homepage_enhanced.html", "/emergency_report.html",
   "/dashboard.html", "/auth.html", "/analytics_dashboard.html", "/about.html",
   "/firebase_config.js", "/database_helper.js", "/image_compression.js",
   "/api_integration.js"]

/-- `isStaticAsset(pathname)` from service-worker.js. -/
def isStaticAsset (pathname : String) : Bool :=
  strEndsWith pathname ".html" || strEndsWith pathname ".js" ||
  strEndsWith pathname ".css" || strEndsWith pathname ".png" ||
  strEndsWith pathname ".jpg" || strEndsWith pathname ".svg" ||
  strEndsWith pathname ".ico"

/-- How a response promise handed to `event.respondWith` settles:
a `Response`, a resolution with a non-`Response` value (`undefined`),
or a rejection (a thrown error). -/
inductive HandlerResult where
  | resp (r : Response)
  | undef
  | thrown
deriving DecidableEq, Repr

/-- Outcome of one fetch-handler invocation: the settled result, the
Cache Store afterwards, and how many background (non-awaited)
revalidation fetches were issued. -/
structure FetchOutcome where
  result : HandlerResult
  store : CacheStorage
  bgFetches : Nat
deriving Repr

/-- The synthetic 503 of `cacheFirst`'s catch branch. -/
def cacheFirstOfflineResponse : Response :=
  ⟨503, "Service Unavailable", "Offline - Resource not cached", []⟩

/-- The synthetic 503 of `networkFirst`'s catch branch. -/
def genericOfflineResponse : Response :=
  ⟨503, "Service Unavailable", "Offline", []⟩

/-- Body of `apiNetworkFirst`'s structured offline error,
`JSON.stringify({error:'Offline',message:'Unable to fetch data while offline',cached:false})`. -/
def apiOfflineBody : String :=
  "\x7b\"error\":\"Offline\",\"message\":\"Unable to fetch data while offline\",\"cached\":false\x7d"

/-- The structured offline 503 of `apiNetworkFirst`'s no-cache branch. -/
def apiOfflineResponse : Response :=
  ⟨503, "", apiOfflineBody, [("Content-Type", "application/json")]⟩

/-- `cacheFirst(request)`: open the static namespace, serve a cache hit
immediately while issuing one non-awaited revalidation fetch whose
`status === 200` response overwrites the entry; on a miss fetch the
network, store a 200 response, and on network failure return the
synthetic 503.  (`cache.put` stores nothing for non-GET requests.) -/
def cacheFirst (net : Request → Option Response) (store : CacheStorage)
    (req : Request) : FetchOutcome :=
  let st := openNS store CACHE_NAME
  match Cache.matchReq (getCache st CACHE_NAME) req with
  | some cached =>
    let st' :=
      match net req with
      | some r =>
        if r.status = 200 ∧ req.method = "GET" then putNS st CACHE_NAME req.url r else st
      | none => st
    ⟨.resp cached, st', 1⟩
  | none =>
    match net req with
    | some r =>
      let st' :=
        if r.status = 200 ∧ req.method = "GET" then putNS st CACHE_NAME req.url r else st
      ⟨.resp r, st', 0⟩
    | none => ⟨.resp cacheFirstOfflineResponse, st, 0⟩

/-- `networkFirst(request)`: try the network, caching a `status === 200`
response under the static namespace; on network failure fall back to any
cached match, then — for requests whose `Accept` header includes
`text/html` — to the cached `/offline.html`.  Two platform subtleties are
modelled faithfully: `request.headers.get('Accept')` is `null` for a
request with no `Accept` header, so `.includes` throws a `TypeError`
(`.thrown`); and `offlineCache.match('/offline.html') || new Response(...)`
short-circuits on the truthy *promise*, so when `/offline.html` is not
cached the handler resolves with `undefined` (`.undef`), never reaching
the `new Response` fallback on that path. -/
def networkFirst (net : Request → Option Response) (store : CacheStorage)
    (req : Request) : FetchOutcome :=
  match net req with
  | some r =>
    let st' :=
      if r.status = 200 ∧ req.method = "GET" then putNS store CACHE_NAME req.url r else store
    ⟨.resp r, st', 0⟩
  | none =>
    match cachesMatch store req with
    | some c => ⟨.resp c, store, 0⟩
    | none =>
      match req.accept with
      | none => ⟨.thrown, store, 0⟩
      | some a =>
        if strIncludes a "text/html" then
          let st := openNS store CACHE_NAME
          match Cache.matchUrl (getCache st CACHE_NAME) "/offline.html" with
          | some off => ⟨.resp off, st, 0⟩
          | none => ⟨.undef, st, 0⟩
        else ⟨.resp genericOfflineResponse, store, 0⟩

/-- `apiNetworkFirst(request)`: try the network, caching a
`status === 200` response under the API namespace; on network failure
serve the cached entry re-wrapped with an added `X-Offline-Response`
header, else the structured JSON offline 503. -/
def apiNetworkFirst (net : Request → Option Response) (store : CacheStorage)
    (req : Request) : FetchOutcome :=
  match net req with
  | some r =>
    let st' :=
      if r.status = 200 ∧ req.method = "GET" then putNS store API_CACHE_NAME req.url r else store
    ⟨.resp r, st', 0⟩
  | none =>
    let st := openNS store API_CACHE_NAME
    match Cache.matchReq (getCache st API_CACHE_NAME) req with
    | some c =>
      ⟨.resp ⟨c.status, c.statusText, c.body,
              headerSet c.headers "X-Offline-Response" "true"⟩, st, 0⟩
    | none => ⟨.resp apiOfflineResponse, st, 0⟩

/-- The fetch listener's dispatch: non-GET → `networkFirst`; `/api/`
paths → `apiNetworkFirst`; static-asset extensions → `cacheFirst`;
everything else → `networkFirst`. -/
def handleFetch (net : Request → Option Response) (store : CacheStorage)
    (req : Request) : FetchOutcome :=
  if req.method ≠ "GET" then networkFirst net store req
  else if strStartsWith req.pathname "/api/" then apiNetworkFirst net store req
  else if isStaticAsset req.pathname then cacheFirst net store req
  else networkFirst net store req

-- Lifecycle: install and activate listeners.

/-- `response.ok`: a 2xx status. -/
def respOk (r : Response) : Bool :=
  200 ≤ r.status && r.status < 300

/-- `cache.addAll(urls)`: fetch every URL; if every fetch resolves with
an ok response, store them all and succeed; otherwise store nothing and
fail (the Cache API batch is atomic).  Returns the store and whether the
returned promise resolved. -/
def addAll (net : String → Option Response) (store : CacheStorage)
    (ns : String) (urls : List String) : CacheStorage × Bool :=
  let st := openNS store ns
  if urls.all (fun u => match net u with | some r => respOk r | none => false) then
    (urls.foldl (fun s u => match net u with | some r => putNS s ns u r | none => s) st, true)
  else (st, false)

/-- Outcome of the install listener: the Cache Store afterwards, whether
the promise handed to `event.waitUntil` rejected (failing the install),
and whether `skipWaiting()` was called. -/
structure InstallResult where
  store : CacheStorage
  promiseRejected : Bool
  skipWaitingCalled : Bool
deriving DecidableEq, Repr

/-- The install listener: `caches.open(CACHE_NAME)`, then
`cache.addAll(STATIC_ASSETS)`, then `skipWaiting()`, with a final
`.catch` that only logs.  Because of that `.catch`, the promise given to
`event.waitUntil` resolves even when `addAll` rejects, so
`promiseRejected` is `false` on every path; `skipWaiting` runs only when
`addAll` succeeded. -/
def installHandler (net : String → Option Response) (store : CacheStorage) :
    InstallResult :=
  let (st, ok) := addAll net store CACHE_NAME STATIC_ASSETS
  ⟨st, false, ok⟩

/-- The activate listener's filter over `caches.keys()`:
`name.startsWith('cartrace-') && name !== CACHE_NAME && name !== API_CACHE_NAME`. -/
def staleCachePred (n : String) : Bool :=
  strStartsWith n "cartrace-" && n != CACHE_NAME && n != API_CACHE_NAME

/-- The activate listener: list all namespace names, keep those matching
`staleCachePred`, and delete each of them. -/
def activateHandler (s : CacheStorage) : CacheStorage :=
  ((s.map (fun e => e.1)).filter staleCachePred).foldl cachesDelete s

-- Client messages.

/-- `event.data` of a client message: its `type` tag, the URL list of a
`CACHE_URLS` message, and the optional `cacheName` of a `CLEAR_CACHE`
message (`none` when the field is absent). -/
structure MessageData where
  type : String
  urls : List String
  cacheName : Option String
deriving DecidableEq, Repr

/-- The message listener: `SKIP_WAITING` calls `skipWaiting()`;
`CACHE_URLS` runs `cache.addAll(event.data.urls)` on the static
namespace (a rejected `addAll` stores nothing and is unhandled);
`CLEAR_CACHE` deletes `event.data.cacheName || CACHE_NAME`, so an absent
(or empty, hence falsy) name falls back to the current static
namespace.  Returns the store and whether `skipWaiting()` was called. -/
def messageHandler (net : String → Option Response) (store : CacheStorage)
    (d : MessageData) : CacheStorage × Bool :=
  let skip := d.type = "SKIP_WAITING"
  let st1 := if d.type = "CACHE_URLS" then (addAll net store CACHE_NAME d.urls).1 else store
  let st2 :=
    if d.type = "CLEAR_CACHE" then
      cachesDelete st1
        (match d.cacheName with
         | none => CACHE_NAME
         | some s => if s = "" then CACHE_NAME else s)
    else st1
  (st2, skip)

-- Offline action queue drain (sync listener).

/-- An outbound resubmission request issued by a drain pass. -/
structure OutboundReq where
  url : String
  method : String
  body : String
deriving DecidableEq, Repr

/-- One item of the `offline-actions` cache: the request URL it is keyed
by and the JSON body stored for it.  (`response.json()` followed by
`JSON.stringify(data)` is modelled as returning the stored body
unchanged.) -/
structure QueueItem where
  url : String
  body : String
deriving DecidableEq, Repr

/-- The resubmission `syncAlerts` builds for a queued alert:
`fetch('/api/alerts', {method:'POST', body: JSON.stringify(data)})` —
note the fixed URL `/api/alerts`, not the item's own URL. -/
def alertResubmission (it : QueueItem) : OutboundReq :=
  ⟨"/api/alerts", "POST", it.body⟩

/-- The resubmission `syncSightings` builds for a queued sighting:
`fetch(request.url, {method:'POST', body: JSON.stringify(data)})`. -/
def sightingResubmission (it : QueueItem) : OutboundReq :=
  ⟨it.url, "POST", it.body⟩

/-- `syncAlerts()`: walk the snapshot of `offline-actions` keys in
order; for each item whose URL includes `/alerts`, resubmit it and
delete it from the queue when the resubmission resolved; a per-item
`try/catch` keeps one failure from stopping the pass.  Returns the queue
left afterwards and the resubmissions issued, in order. -/
def syncAlerts (net : OutboundReq → Option Response) :
    List QueueItem → List QueueItem × List OutboundReq
  | [] => ([], [])
  | it :: rest =>
    let p := syncAlerts net rest
    if strIncludes it.url "/alerts" then
      match net (alertResubmission it) with
      | some _ => (p.1, alertResubmission it :: p.2)
      | none => (it :: p.1, alertResubmission it :: p.2)
    else (it :: p.1, p.2)

/-- `syncSightings()`: as `syncAlerts`, for items whose URL includes
`/sightings`, resubmitting to the item's own URL. -/
def syncSightings (net : OutboundReq → Option Response) :
    List QueueItem → List QueueItem × List OutboundReq
  | [] => ([], [])
  | it :: rest =>
    let p := syncSightings net rest
    if strIncludes it.url "/sightings" then
      match net (sightingResubmission it) with
      | some _ => (p.1, sightingResubmission it :: p.2)
      | none => (it :: p.1, sightingResubmission it :: p.2)
    else (it :: p.1, p.2)

-- Notification router: push and notificationclick listeners.

/-- A parsed push payload; every field is optional
(`{title?, body?, tag?, data?}`, with `data.url` the routing target). -/
structure PushPayload where
  title : Option String
  body : Option String
  tag : Option String
  dataUrl : Option String
deriving DecidableEq, Repr

/-- The notification the push listener displays. -/
structure SWNotification where
  title : String
  body : String
  icon : String
  badge : String
  tag : String
  dataUrl : Option String
  actions : List String
deriving DecidableEq, Repr

/-- JavaScript `s || dflt` for an optional string field: the default is
used when the field is absent *or* holds the falsy empty string. -/
def jsOrDefault (s : Option String) (dflt : String) : String :=
  match s with
  | none => dflt
  | some v => if v = "" then dflt else v

/-- The push listener: `event.data ? event.data.json() : {}`, then show
a notification with `||`-defaulted title, body and tag and the payload's
data bag. -/
def pushHandler (payload : Option PushPayload) : SWNotification :=
  let d := payload.getD ⟨none, none, none, none⟩
  { title := jsOrDefault d.title "CarTrace Pro"
    body := jsOrDefault d.body "New stolen vehicle alert"
    icon := "/icon-192.png"
    badge := "/badge-72.png"
    tag := jsOrDefault d.tag "general"
    dataUrl := d.dataUrl
    actions := ["view", "close"] }

/-- What a notification click navigated to: focused an open client
window, opened a new one, or did nothing. -/
inductive ClickNav where
  | focused (url : String)
  | openedNew (url : String)
  | noNav
deriving DecidableEq, Repr

/-- Outcome of the notificationclick listener. -/
structure ClickOutcome where
  closed : Bool
  nav : ClickNav
deriving DecidableEq, Repr

/-- The notificationclick listener: always `event.notification.close()`;
only when `event.action === 'view'` resolve
`event.notification.data.url || '/dashboard.html'` (an absent *or*
empty, hence falsy, url falls back to the dashboard route) and focus an
already-open client at that URL, else open a new window.
(`openClients` is the URL list of `clients.matchAll`; `client.focus` and
`clients.openWindow` are taken as available.) -/
def notificationclickHandler (action : String) (dataUrl : Option String)
    (openClients : List String) : ClickOutcome :=
  let nav :=
    if action = "view" then
      let urlToOpen := jsOrDefault dataUrl "/dashboard.html"
      if urlToOpen ∈ openClients then ClickNav.focused urlToOpen
      else ClickNav.openedNew urlToOpen
    else ClickNav.noNav
  ⟨true, nav⟩

-- Basic lemmas about the Cache Store model.

theorem alistGet_put_self {α : Type} (l : List (String × α)) (k : String) (v : α) :
    alistGet (alistPut l k v) k = some v := by
  induction l with
  | nil => simp [alistPut, alistGet]
  | cons e rest ih =>
    obtain ⟨k0, v0⟩ := e
    by_cases h0 : k0 = k
    · simp [alistPut, alistGet, h0]
    · simp [alistPut, alistGet, h0, ih]

theorem alistGet_put_ne {α : Type} (l : List (String × α)) (k : String) (v : α)
    (k' : String) (h : k' ≠ k) :
    alistGet (alistPut l k v) k' = alistGet l k' := by
  induction l with
  | nil => simp [alistPut, alistGet, Ne.symm h]
  | cons e rest ih =>
    obtain ⟨k0, v0⟩ := e
    by_cases h0 : k0 = k
    · subst h0
      simp [alistPut, alistGet, Ne.symm h]
    · by_cases h1 : k0 = k'
      · simp [alistPut, alistGet, h0, h1, h]
      · simp [alistPut, alistGet, h0, h1, ih]

theorem getCache_openNS (s : CacheStorage) (n m : String) :
    getCache (openNS s n) m = getCache s m := by
  induction s with
  | nil =>
    by_cases h : n = m <;> simp [openNS, getCache, alistGet, h]
  | cons e rest ih =>
    obtain ⟨k, c⟩ := e
    by_cases h0 : k = n
    · simp [openNS, h0]
    · simp only [openNS, if_neg h0]
      by_cases h : k = m
      · simp [getCache, alistGet, h]
      · simp only [getCache, alistGet, if_neg h]
        exact ih

theorem getCache_putNS (s : CacheStorage) (n u : String) (r : Response)
    (m : String) :
    getCache (putNS s n u r) m =
      if m = n then alistPut (getCache s n) u r else getCache s m := by
  induction s with
  | nil =>
    by_cases h : m = n
    · subst h
      simp [putNS, getCache, alistGet]
    · simp [putNS, getCache, alistGet, h, Ne.symm h]
  | cons e rest ih =>
    obtain ⟨k, c⟩ := e
    by_cases h0 : k = n
    · subst h0
      by_cases h : m = k
      · subst h
        simp [putNS, getCache, alistGet]
      · simp [putNS, getCache, alistGet, h, Ne.symm h]
    · simp only [putNS, if_neg h0]
      by_cases h : k = m
      · subst h
        simp [getCache, alistGet, h0]
      · simp only [getCache, alistGet, if_neg h, if_neg h0]
        exact ih

theorem entryLookup_openNS (s : CacheStorage) (n m u : String) :
    entryLookup (openNS s n) m u = entryLookup s m u := by
  simp [entryLookup, getCache_openNS]

theorem entryLookup_putNS (s : CacheStorage) (n u : String) (r : Response)
    (m v : String) :
    entryLookup (putNS s n u r) m v =
      if m = n ∧ v = u then some r else entryLookup s m v := by
  unfold entryLookup
  rw [getCache_putNS]
  by_cases hm : m = n
  · by_cases hv : v = u
    · subst hv
      simp [hm, alistGet_put_self]
    · simp [hm, hv, alistGet_put_ne _ _ _ _ hv]
  · simp [hm]

theorem mem_cachesDelete (s : CacheStorage) (n : String) (e : String × Cache) :
    e ∈ cachesDelete s n ↔ e ∈ s ∧ e.1 ≠ n := by
  simp [cachesDelete, List.mem_filter]

theorem mem_foldl_cachesDelete (names : List String) (s : CacheStorage)
    (e : String × Cache) :
    e ∈ names.foldl cachesDelete s ↔ e ∈ s ∧ e.1 ∉ names := by
  induction names generalizing s with
  | nil => simp
  | cons n rest ih =>
    simp only [List.foldl_cons, ih, mem_cachesDelete, List.mem_cons]
    constructor
    · rintro ⟨⟨he, hn⟩, hrest⟩
      exact ⟨he, by simp [hn, hrest]⟩
    · rintro ⟨he, h⟩
      push_neg at h
      exact ⟨⟨he, h.1⟩, h.2⟩

/-- Any store a strategy can leave behind — unchanged, a namespace
opened, or a whole-entry overwrite with a status-200 response — changes
an entry only to a status-200 response. -/
theorem storeChange_sound (store st' : CacheStorage) (ns u0 : String)
    (h : st' = store ∨ st' = openNS store ns ∨
      ∃ r, (st' = putNS store ns u0 r ∨ st' = putNS (openNS store ns) ns u0 r) ∧
        r.status = 200)
    (n u : String) :
    entryLookup st' n u = entryLookup store n u ∨
      ∃ r, entryLookup st' n u = some r ∧ r.status = 200 := by
  rcases h with rfl | rfl | ⟨r, hput, h200⟩
  · exact Or.inl rfl
  · exact Or.inl (entryLookup_openNS store ns n u)
  · by_cases hc : n = ns ∧ u = u0
    · rcases hput with rfl | rfl
      · exact Or.inr ⟨r, by rw [entryLookup_putNS]; simp [hc], h200⟩
      · exact Or.inr ⟨r, by rw [entryLookup_putNS]; simp [hc], h200⟩
    · rcases hput with rfl | rfl
      · exact Or.inl (by rw [entryLookup_putNS]; simp [hc])
      · exact Or.inl (by rw [entryLookup_putNS, entryLookup_openNS]; simp [hc])

theorem networkFirst_store_cases (net : Request → Option Response)
    (store : CacheStorage) (req : Request) :
    (networkFirst net store req).store = store ∨
      (networkFirst net store req).store = openNS store CACHE_NAME ∨
      ∃ r, ((networkFirst net store req).store = putNS store CACHE_NAME req.url r ∨
        (networkFirst net store req).store =
          putNS (openNS store CACHE_NAME) CACHE_NAME req.url r) ∧
        r.status = 200 := by
  unfold networkFirst
  cases hnet : net req with
  | some r =>
    by_cases h : r.status = 200 ∧ req.method = "GET"
    · exact Or.inr (Or.inr ⟨r, Or.inl (by simp [h]), h.1⟩)
    · exact Or.inl (by simp [h])
  | none =>
    cases hcm : cachesMatch store req with
    | some c => exact Or.inl rfl
    | none =>
      cases hacc : req.accept with
      | none => exact Or.inl rfl
      | some a =>
        by_cases hh : strIncludes a "text/html" = true
        · cases hoff : Cache.matchUrl (getCache (openNS store CACHE_NAME) CACHE_NAME)
              "/offline.html" with
          | some off => exact Or.inr (Or.inl (by simp [hh, hoff]))
          | none => exact Or.inr (Or.inl (by simp [hh, hoff]))
        · exact Or.inl (by simp [hh])

theorem cacheFirst_store_cases (net : Request → Option Response)
    (store : CacheStorage) (req : Request) :
    (cacheFirst net store req).store = store ∨
      (cacheFirst net store req).store = openNS store CACHE_NAME ∨
      ∃ r, ((cacheFirst net store req).store = putNS store CACHE_NAME req.url r ∨
        (cacheFirst net store req).store =
          putNS (openNS store CACHE_NAME) CACHE_NAME req.url r) ∧
        r.status = 200 := by
  unfold cacheFirst
  cases hm : Cache.matchReq (getCache (openNS store CACHE_NAME) CACHE_NAME) req with
  | some cached =>
    cases hnet : net req with
    | some r =>
      by_cases h : r.status = 200 ∧ req.method = "GET"
      · exact Or.inr (Or.inr ⟨r, Or.inr (by simp [hm, hnet, h]), h.1⟩)
      · exact Or.inr (Or.inl (by simp [hm, hnet, h]))
    | none => exact Or.inr (Or.inl (by simp [hm, hnet]))
  | none =>
    cases hnet : net req with
    | some r =>
      by_cases h : r.status = 200 ∧ req.method = "GET"
      · exact Or.inr (Or.inr ⟨r, Or.inr (by simp [hm, hnet, h]), h.1⟩)
      · exact Or.inr (Or.inl (by simp [hm, hnet, h]))
    | none => exact Or.inr (Or.inl (by simp [hm, hnet]))

theorem apiNetworkFirst_store_cases (net : Request → Option Response)
    (store : CacheStorage) (req : Request) :
    (apiNetworkFirst net store req).store = store ∨
      (apiNetworkFirst net store req).store = openNS store API_CACHE_NAME ∨
      ∃ r, ((apiNetworkFirst net store req).store =
          putNS store API_CACHE_NAME req.url r ∨
        (apiNetworkFirst net store req).store =
          putNS (openNS store API_CACHE_NAME) API_CACHE_NAME req.url r) ∧
        r.status = 200 := by
  unfold apiNetworkFirst
  cases hnet : net req with
  | some r =>
    by_cases h : r.status = 200 ∧ req.method = "GET"
    · exact Or.inr (Or.inr ⟨r, Or.inl (by simp [h]), h.1⟩)
    · exact Or.inl (by simp [h])
  | none =>
    cases hm : Cache.matchReq (getCache (openNS store API_CACHE_NAME) API_CACHE_NAME) req with
    | some c => exact Or.inr (Or.inl (by simp [hm]))
    | none => exact Or.inr (Or.inl (by simp [hm]))

-- Concrete data used to instantiate theorems with hypotheses.

/-- A previously cached copy of a static asset. -/
def demoStale : Response := ⟨200, "OK", "stale body", []⟩

/-- A fresh network copy of the same asset. -/
def demoFresh : Response := ⟨200, "OK", "fresh body", []⟩

/-- A cached API response snapshot. -/
def demoApiCached : Response := ⟨201, "Created", "\x7b\"alerts\":[]\x7d", []⟩

/-- A store holding one static asset and one API response. -/
def demoStore : CacheStorage :=
  [(CACHE_NAME, [("/app.js", demoStale)]),
   (API_CACHE_NAME, [("/api/statistics", demoApiCached)])]

/-- A GET request for the cached static asset. -/
def demoAssetReq : Request := ⟨"/app.js", "/app.js", "GET", some "*/*", ""⟩

/-- A GET request for the cached API endpoint. -/
def demoApiReq : Request :=
  ⟨"/api/statistics", "/api/statistics", "GET", some "application/json", ""⟩

/-- A GET request for an API endpoint nothing is cached for. -/
def demoApiMissReq : Request :=
  ⟨"/api/community", "/api/community", "GET", some "application/json", ""⟩

-- C9

/-- Claim C9: for every fetch handled by any strategy (cache-first,
network-first, API network-first), a response is persisted into a cache
namespace only when it has a successful status — any entry of the
resulting store either is the one the input store already held for that
key (entries change only by whole-entry overwrite) or is a response
whose status is 200. -/
theorem c9_only_success_persisted (net : Request → Option Response)
    (store : CacheStorage) (req : Request) (n u : String) :
    entryLookup (handleFetch net store req).store n u = entryLookup store n u ∨
      ∃ r, entryLookup (handleFetch net store req).store n u = some r ∧
        r.status = 200 := by
  unfold handleFetch
  by_cases h1 : req.method ≠ "GET"
  · simp only [if_pos h1]
    exact storeChange_sound store _ CACHE_NAME req.url
      (networkFirst_store_cases net store req) n u
  · simp only [if_neg h1]
    by_cases h2 : strStartsWith req.pathname "/api/" = true
    · simp only [if_pos h2]
      exact storeChange_sound store _ API_CACHE_NAME req.url
        (apiNetworkFirst_store_cases net store req) n u
    · simp only [if_neg h2]
      by_cases h3 : isStaticAsset req.pathname = true
      · simp only [if_pos h3]
        exact storeChange_sound store _ CACHE_NAME req.url
          (cacheFirst_store_cases net store req) n u
      · simp only [if_neg h3]
        exact storeChange_sound store _ CACHE_NAME req.url
          (networkFirst_store_cases net store req) n u

-- C6

/-- Claim C6: on an activate trigger, a namespace survives exactly when
it is not stale — i.e. an entry remains in the store iff it was there
before and its name does not both carry the `cartrace-` product prefix
and differ from the current static and API namespaces; in particular
`CACHE_NAME` and `API_CACHE_NAME` are retained and every other
`cartrace-` namespace is deleted. -/
theorem c6_activate_prunes_stale (s : CacheStorage) (e : String × Cache) :
    e ∈ activateHandler s ↔
      e ∈ s ∧ ¬(strStartsWith e.1 "cartrace-" = true ∧
        e.1 ≠ CACHE_NAME ∧ e.1 ≠ API_CACHE_NAME) := by
  unfold activateHandler
  rw [mem_foldl_cachesDelete]
  constructor
  · rintro ⟨hs, hn⟩
    refine ⟨hs, fun hp => hn ?_⟩
    simp only [List.mem_filter, List.mem_map]
    exact ⟨⟨e, hs, rfl⟩, by simp [staleCachePred, hp.1, hp.2.1, hp.2.2]⟩
  · rintro ⟨hs, hp⟩
    refine ⟨hs, fun hmem => hp ?_⟩
    simp only [List.mem_filter] at hmem
    have hpr := hmem.2
    simp only [staleCachePred, Bool.and_eq_true, bne_iff_ne] at hpr
    exact ⟨hpr.1.1, hpr.1.2, hpr.2⟩

-- C5

/-- Claim C5: for every static-asset request with an existing cache
entry, `cacheFirst` returns the cached entry (for every network
behaviour, so no network round-trip is awaited), issues exactly one
background revalidation fetch, and a status-200 response of that fetch
overwrites the cache entry. -/
theorem c5_cache_first_hit (net : Request → Option Response)
    (store : CacheStorage) (req : Request) (cached : Response)
    (h : Cache.matchReq (getCache store CACHE_NAME) req = some cached) :
    (cacheFirst net store req).result = HandlerResult.resp cached ∧
    (cacheFirst net store req).bgFetches = 1 ∧
    (∀ r, net req = some r → r.status = 200 →
      entryLookup (cacheFirst net store req).store CACHE_NAME req.url = some r) := by
  have hm : req.method = "GET" := by
    by_contra hm
    simp [Cache.matchReq, hm] at h
  have hopen : Cache.matchReq (getCache (openNS store CACHE_NAME) CACHE_NAME) req
      = some cached := by
    rw [getCache_openNS]
    exact h
  refine ⟨by simp [cacheFirst, hopen], by simp [cacheFirst, hopen], ?_⟩
  intro r hr h200
  simp only [cacheFirst, hopen]
  simp only [hr, h200, hm, and_self, if_true]
  rw [entryLookup_putNS]
  simp

/-- Witness for C5 at a concrete store, request and network. -/
theorem c5_cache_first_hit_witness :
    (cacheFirst (fun _ => some demoFresh) demoStore demoAssetReq).result =
      HandlerResult.resp demoStale ∧
    (cacheFirst (fun _ => some demoFresh) demoStore demoAssetReq).bgFetches = 1 ∧
    entryLookup (cacheFirst (fun _ => some demoFresh) demoStore demoAssetReq).store
      CACHE_NAME "/app.js" = some demoFresh := by
  have h := c5_cache_first_hit (fun _ => some demoFresh) demoStore demoAssetReq
    demoStale (by decide)
  exact ⟨h.1, h.2.1, h.2.2 demoFresh rfl rfl⟩

-- C4

/-- Claim C4: for every GET API request whose network fetch fails,
`apiNetworkFirst` returns the structured offline JSON with status 503
when nothing is cached, and otherwise the cached body with the
originally cached status plus the `X-Offline-Response: true` marker
header. -/
theorem c4_api_offline_fallback (net : Request → Option Response)
    (store : CacheStorage) (req : Request)
    (hnet : net req = none) (hm : req.method = "GET") :
    (Cache.matchUrl (getCache store API_CACHE_NAME) req.url = none →
      (apiNetworkFirst net store req).result = HandlerResult.resp apiOfflineResponse ∧
      apiOfflineResponse.status = 503 ∧ apiOfflineResponse.body = apiOfflineBody) ∧
    (∀ c, Cache.matchUrl (getCache store API_CACHE_NAME) req.url = some c →
      ∃ r, (apiNetworkFirst net store req).result = HandlerResult.resp r ∧
        r.status = c.status ∧ r.body = c.body ∧
        headerGet r.headers "X-Offline-Response" = some "true") := by
  have hopen : ∀ o, Cache.matchUrl (getCache store API_CACHE_NAME) req.url = o →
      Cache.matchReq (getCache (openNS store API_CACHE_NAME) API_CACHE_NAME) req = o := by
    intro o ho
    rw [Cache.matchReq, if_pos hm, getCache_openNS]
    exact ho
  constructor
  · intro hmiss
    refine ⟨?_, rfl, rfl⟩
    simp [apiNetworkFirst, hnet, hopen none hmiss]
  · intro c hc
    refine ⟨⟨c.status, c.statusText, c.body,
      headerSet c.headers "X-Offline-Response" "true"⟩, ?_, rfl, rfl, ?_⟩
    · simp [apiNetworkFirst, hnet, hopen (some c) hc]
    · exact alistGet_put_self c.headers "X-Offline-Response" "true"

/-- Witness for C4: both the cache-miss and the cache-hit offline
fallbacks at concrete requests against `demoStore`. -/
theorem c4_api_offline_fallback_witness :
    (apiNetworkFirst (fun _ => none) demoStore demoApiMissReq).result =
      HandlerResult.resp apiOfflineResponse ∧
    (∃ r, (apiNetworkFirst (fun _ => none) demoStore demoApiReq).result =
      HandlerResult.resp r ∧ r.status = 201 ∧
      headerGet r.headers "X-Offline-Response" = some "true") := by
  constructor
  · exact ((c4_api_offline_fallback (fun _ => none) demoStore demoApiMissReq
      rfl rfl).1 (by decide)).1
  · obtain ⟨r, h1, h2, _h3, h4⟩ := (c4_api_offline_fallback (fun _ => none)
      demoStore demoApiReq rfl rfl).2 demoApiCached (by decide)
    exact ⟨r, h1, by rw [h2]; rfl, h4⟩

-- C10

/-- Claim C10: a `CLEAR_CACHE` message that omits the cache name deletes
the current static namespace `CACHE_NAME` — afterwards an entry is in
the store iff it was there before and is not the `CACHE_NAME`
namespace — and does not call `skipWaiting`. -/
theorem c10_clear_cache_default (net : String → Option Response)
    (store : CacheStorage) (m : String) (c : Cache) :
    (messageHandler net store ⟨"CLEAR_CACHE", [], none⟩).1 =
      cachesDelete store CACHE_NAME ∧
    ((m, c) ∈ (messageHandler net store ⟨"CLEAR_CACHE", [], none⟩).1 ↔
      (m, c) ∈ store ∧ m ≠ CACHE_NAME) ∧
    (messageHandler net store ⟨"CLEAR_CACHE", [], none⟩).2 = false := by
  refine ⟨rfl, ?_, rfl⟩
  have h := mem_cachesDelete store CACHE_NAME (m, c)
  exact h

-- C3

theorem syncAlerts_spec (net : OutboundReq → Option Response) (q : List QueueItem) :
    (syncAlerts net q).1 =
      q.filter (fun it => !(strIncludes it.url "/alerts") ||
        (net (alertResubmission it)).isNone) ∧
    (syncAlerts net q).2 =
      (q.filter (fun it => strIncludes it.url "/alerts")).map alertResubmission := by
  induction q with
  | nil => simp [syncAlerts]
  | cons it rest ih =>
    by_cases h : strIncludes it.url "/alerts" = true
    · cases hnet : net (alertResubmission it) with
      | some r =>
        simp [syncAlerts, h, hnet, ih.1, ih.2, List.filter_cons, List.map_cons]
      | none =>
        simp [syncAlerts, h, hnet, ih.1, ih.2, List.filter_cons, List.map_cons]
    · simp [syncAlerts, h, ih.1, ih.2, List.filter_cons]

theorem syncSightings_spec (net : OutboundReq → Option Response) (q : List QueueItem) :
    (syncSightings net q).1 =
      q.filter (fun it => !(strIncludes it.url "/sightings") ||
        (net (sightingResubmission it)).isNone) ∧
    (syncSightings net q).2 =
      (q.filter (fun it => strIncludes it.url "/sightings")).map sightingResubmission := by
  induction q with
  | nil => simp [syncSightings]
  | cons it rest ih =>
    by_cases h : strIncludes it.url "/sightings" = true
    · cases hnet : net (sightingResubmission it) with
      | some r =>
        simp [syncSightings, h, hnet, ih.1, ih.2, List.filter_cons, List.map_cons]
      | none =>
        simp [syncSightings, h, hnet, ih.1, ih.2, List.filter_cons, List.map_cons]
    · simp [syncSightings, h, ih.1, ih.2, List.filter_cons]

/-- A queued offline alert whose original URL is not the fixed `/api/alerts`
resubmission endpoint. -/
def alertItemDemo : QueueItem :=
  ⟨"https://cartrace.example/api/alerts/special", "\x7b\"vin\":\"ABC123\"\x7d"⟩

/-- A network that accepts every resubmission. -/
def okNetDemo : OutboundReq → Option Response := fun _ => some ⟨200, "OK", "", []⟩

/-- Counterexample to claim C3 as stated: a queued alert item is not
resubmitted "as its original HTTP request (original URL, ...)" —
`syncAlerts` posts it to the fixed endpoint `/api/alerts`, which differs
from the item's own URL (the item is still deleted on success). -/
theorem c3_alert_resubmission_url_cx :
    (syncAlerts okNetDemo [alertItemDemo]).2 =
      [⟨"/api/alerts", "POST", alertItemDemo.body⟩] ∧
    ("/api/alerts" : String) ≠ alertItemDemo.url ∧
    (syncAlerts okNetDemo [alertItemDemo]).1 = [] := by
  refine ⟨rfl, by decide, rfl⟩

/-- Claim C3 as amended: in every drain pass, each queued item of the
pass's category is resubmitted exactly once as a POST — alerts to the
fixed endpoint `/api/alerts`, sightings to the item's original URL —
each with the item's stored body; an item is deleted from the queue
exactly when its resubmission succeeds and is left in place on failure;
every matching item of the pass is attempted regardless of other items'
failures. -/
theorem c3_drain_characterization (net : OutboundReq → Option Response)
    (q : List QueueItem) :
    (syncAlerts net q).1 =
      q.filter (fun it => !(strIncludes it.url "/alerts") ||
        (net (alertResubmission it)).isNone) ∧
    (syncAlerts net q).2 =
      (q.filter (fun it => strIncludes it.url "/alerts")).map alertResubmission ∧
    (syncSightings net q).1 =
      q.filter (fun it => !(strIncludes it.url "/sightings") ||
        (net (sightingResubmission it)).isNone) ∧
    (syncSightings net q).2 =
      (q.filter (fun it => strIncludes it.url "/sightings")).map sightingResubmission :=
  ⟨(syncAlerts_spec net q).1, (syncAlerts_spec net q).2,
   (syncSightings_spec net q).1, (syncSightings_spec net q).2⟩

-- C1

/-- A write-class request made while offline. -/
def writeReqDemo : Request :=
  ⟨"/api/alerts", "/api/alerts", "POST", some "application/json",
   "\x7b\"vin\":\"ABC123\"\x7d"⟩

/-- Counterexample to claim C1 as stated: a write request whose network
fetch fails gets the plain `Offline` 503 error response — not a
"queued for retry" acknowledgment — and the `offline-actions` queue
holds zero items afterwards, not one. -/
theorem c1_write_failure_not_enqueued_cx :
    (handleFetch (fun _ => none) [] writeReqDemo).result =
      HandlerResult.resp genericOfflineResponse ∧
    genericOfflineResponse.status = 503 ∧
    (getCache (handleFetch (fun _ => none) [] writeReqDemo).store
      "offline-actions").length = 0 := by
  refine ⟨?_, rfl, ?_⟩ <;> decide

/-- Claim C1 as amended: for every write-class (non-GET) request whose
network fetch fails (and whose `Accept` header exists and does not
include `text/html`), the fetch handler returns the generic offline 503
error response; it never enqueues anything — the Cache Store, and with
it the `offline-actions` queue, is left unchanged. -/
theorem c1_write_failure_offline_response (net : Request → Option Response)
    (store : CacheStorage) (req : Request) (a : String)
    (hm : req.method ≠ "GET") (hnet : net req = none)
    (hacc : req.accept = some a) (hhtml : strIncludes a "text/html" = false) :
    (handleFetch net store req).result = HandlerResult.resp genericOfflineResponse ∧
    (handleFetch net store req).store = store ∧
    getCache (handleFetch net store req).store "offline-actions" =
      getCache store "offline-actions" := by
  have hdispatch : handleFetch net store req = networkFirst net store req := by
    simp [handleFetch, hm]
  have hcm : cachesMatch store req = none := by
    simp [cachesMatch, hm]
  rw [hdispatch]
  simp [networkFirst, hnet, hcm, hacc, hhtml]

/-- Witness for C1's amended theorem at the concrete offline write. -/
theorem c1_write_failure_offline_response_witness :
    (handleFetch (fun _ => none) demoStore writeReqDemo).result =
      HandlerResult.resp genericOfflineResponse ∧
    (handleFetch (fun _ => none) demoStore writeReqDemo).store = demoStore := by
  have h := c1_write_failure_offline_response (fun _ => none) demoStore writeReqDemo
    "application/json" (by decide) rfl rfl (by decide)
  exact ⟨h.1, h.2.1⟩

-- C2

/-- A network where fetching the manifest entry `/index.html` fails and
every other static asset succeeds. -/
def installNetDemo : String → Option Response :=
  fun u => if u = "/index.html" then none else some ⟨200, "OK", "asset", []⟩

/-- Claim C2 concerns a code bug: when fetching a manifest entry fails
during install, the listener's final `.catch` swallows the `addAll`
rejection, so the promise handed to `event.waitUntil` resolves — the
install never rejects (for any network and store) and hence completes,
the new worker becoming ready to activate; at the failing network
nothing was cached and `skipWaiting` was skipped, yet
`promiseRejected` is still `false`. -/
theorem c2_install_failure_swallowed :
    (∀ (net : String → Option Response) (store : CacheStorage),
      (installHandler net store).promiseRejected = false) ∧
    (installHandler installNetDemo []).promiseRejected = false ∧
    (installHandler installNetDemo []).skipWaitingCalled = false ∧
    (installHandler installNetDemo []).store = [(CACHE_NAME, [])] := by
  refine ⟨fun net store => rfl, rfl, ?_, ?_⟩ <;> decide

-- C7

/-- A non-API, non-static GET request carrying no `Accept` header. -/
def noAcceptReqDemo : Request := ⟨"/some/data", "/some/data", "GET", none, ""⟩

/-- Claim C7 concerns a code bug: a non-API read with no cache entry and
no `Accept` header makes `networkFirst` evaluate
`request.headers.get('Accept').includes(...)` on `null` when its network
fetch fails, so the fetch handler rejects with a thrown `TypeError`
instead of producing a response. -/
theorem c7_missing_accept_header_throws :
    (handleFetch (fun _ => none) [] noAcceptReqDemo).result =
      HandlerResult.thrown := by
  decide

-- C8

/-- Counterexample to claim C8 as stated: a notification click carrying
no explicit action (`event.action` is the empty string) is dismissed but
navigates nowhere — it neither focuses nor opens the dashboard route. -/
theorem c8_plain_click_no_navigation_cx :
    (notificationclickHandler "" none []).closed = true ∧
    (notificationclickHandler "" none []).nav = ClickNav.noNav ∧
    ClickNav.noNav ≠ ClickNav.openedNew "/dashboard.html" := by
  refine ⟨rfl, rfl, by decide⟩

/-- Claim C8 as amended: a push event with an empty or absent payload
still displays a notification with the default title and body; every
notification click dismisses the notification; a click carrying the
`view` action resolves the target URL from the data bag (an absent or
empty, hence falsy, url defaulting to `/dashboard.html`) and focuses an
already-open window at that URL or opens a new one; a click carrying
any other action (including no explicit action) navigates nowhere. -/
theorem c8_notification_router (action : String) (dataUrl : Option String)
    (cl : List String) :
    (pushHandler none).title = "CarTrace Pro" ∧
    (pushHandler none).body = "New stolen vehicle alert" ∧
    (notificationclickHandler action dataUrl cl).closed = true ∧
    (action = "view" →
      (notificationclickHandler action dataUrl cl).nav =
        (if jsOrDefault dataUrl "/dashboard.html" ∈ cl then
          ClickNav.focused (jsOrDefault dataUrl "/dashboard.html")
        else ClickNav.openedNew (jsOrDefault dataUrl "/dashboard.html"))) ∧
    (action ≠ "view" →
      (notificationclickHandler action dataUrl cl).nav = ClickNav.noNav) := by
  refine ⟨rfl, rfl, rfl, ?_, ?_⟩
  · intro h
    simp [notificationclickHandler, h]
  · intro h
    simp [notificationclickHandler, h]

/-- Witness for C8's amended theorem: a `view` click with a missing data
URL opens the dashboard, as does one with the present-but-empty (falsy)
URL `""`; a `close` click navigates nowhere. -/
theorem c8_notification_router_witness :
    (notificationclickHandler "view" none []).nav =
      ClickNav.openedNew "/dashboard.html" ∧
    (notificationclickHandler "view" (some "") []).nav =
      ClickNav.openedNew "/dashboard.html" ∧
    (notificationclickHandler "close" none []).nav = ClickNav.noNav := by
  refine ⟨?_, ?_, ?_⟩
  · have h := (c8_notification_router "view" none []).2.2.2.1 rfl
    simpa [jsOrDefault] using h
  · have h := (c8_notification_router "view" (some "") []).2.2.2.1 rfl
    simpa [jsOrDefault] using h
  · exact (c8_notification_router "close" none []).2.2.2.2 (by decide)
